import Mathlib

/-!
# Bounce handlers of listmonk (`cmd/bounce.go`)

A shallow embedding of the three HTTP handlers `handleGetBounces`,
`handleDeleteBounces`, `handleBounceWebhook` and of `validateBounceFields`.

* Every collaborator that the handlers reach through `app`, through the
  package (`bounceQuerySortFields`, `sortAsc`, `reUUID`, ...) or through a
  library whose behaviour depends on data outside `cmd/bounce.go` is a field of
  the record `App`; the handlers are functions of that record.
* Calls with an effect (`db.Select`, `DeleteBounces.Exec`, `bounce.Record`,
  `log.Printf`) are recorded, in order, in the `Effects` trace that every
  handler returns next to its response.
* `strconv.ParseInt`, `strconv.Atoi`, `strconv.ParseBool` and
  `time.Time.Year` are modelled after the Go standard library.
-/

namespace Listmonk

/-! ## Localisation and HTTP errors -/

/-- Message requested from the localisation resource: the key and the
substitution parameters of the call. The rendering of the key is outside the
handlers. -/
structure Msg where
  key : String
  params : List String
deriving DecidableEq, Repr

/-- Call `app.i18n.T(key)`. -/
def T (key : String) : Msg := ⟨key, []⟩

/-- Call `app.i18n.Ts(key, params...)`. -/
def Ts (key : String) (params : List String) : Msg := ⟨key, params⟩

/-- Value of `echo.HTTPError`: status code and message. -/
structure HTTPError where
  code : Nat
  message : Msg
deriving DecidableEq, Repr

def StatusOK : Nat := 200
def StatusBadRequest : Nat := 400
def StatusInternalServerError : Nat := 500

/-- Constructor `echo.NewHTTPError(code, message)`. -/
def NewHTTPError (code : Nat) (message : Msg) : HTTPError := ⟨code, message⟩

/-! ## Time -/

/-- Instant of `time.Time`: seconds and nanoseconds since January 1, year 1,
00:00:00 UTC, and the offset of the zone the instant is shown in. The Go zero
value has every field zero. -/
structure Time where
  sec : Int
  nsec : Nat
  offset : Int
deriving DecidableEq, Repr

/-- Go zero value `time.Time{}`. -/
def Time.zero : Time := ⟨0, 0, 0⟩

/-- Year of the day that lies `d` days after January 1 of year 1 (proleptic
Gregorian calendar), by 400, 100, 4 and 1 year cycles as in the Go runtime. -/
def yearOfDays (d : Int) : Int :=
  let n400 := d / 146097
  let d1 := d - 146097 * n400
  let c := d1 / 36524
  let n100 := c - c / 4
  let d2 := d1 - 36524 * n100
  let n4 := d2 / 1461
  let d3 := d2 - 1461 * n4
  let y := d3 / 365
  let n1 := y - y / 4
  400 * n400 + 100 * n100 + 4 * n4 + n1 + 1

/-- Method `Time.Year()`. -/
def Time.Year (t : Time) : Int := yearOfDays ((t.sec + t.offset) / 86400)

/-! ## Data model -/

/-- Modelled from the spec: the type declaration `models.Bounce` is not part of
`cmd/bounce.go`; the fields are those of the BounceRecord of the data model.
`Meta` is the text of the raw JSON message. -/
structure Bounce where
  ID : Int
  SubscriberUUID : String
  Email : String
  CampaignID : Int
  Source : String
  Meta : String
  CreatedAt : Time
  Total : Int
deriving DecidableEq, Repr

/-- Go zero value of `models.Bounce` (`var b models.Bounce`). -/
def Bounce.zero : Bounce := ⟨0, "", "", 0, "", "", Time.zero, 0⟩

/-- Result type `bouncesWrap`. -/
structure bouncesWrap where
  Results : List Bounce
  Total : Int
  PerPage : Int
  Page : Int
deriving DecidableEq, Repr

/-- Pagination values produced by `getPagination`. -/
structure Pagination where
  PerPage : Int
  Page : Int
  Offset : Int
  Limit : Int
deriving DecidableEq, Repr

/-- Bind arguments of the list query: `id, campID, source, pg.Offset, pg.Limit`. -/
structure SelectArgs where
  id : Int
  campID : Int
  source : String
  offset : Int
  limit : Int
deriving DecidableEq, Repr

/-- Body given to `c.JSON` inside `okResp`. -/
inductive Payload where
  | wrap (out : bouncesWrap)
  | bounce (b : Bounce)
  | flag (v : Bool)
deriving DecidableEq, Repr

/-- What a handler returns: a JSON response or an error. -/
inductive Response where
  | json (code : Nat) (body : Payload)
  | fail (e : HTTPError)
deriving DecidableEq, Repr

/-- Trace of the calls with an effect made by a handler, in call order. -/
structure Effects where
  selects : List (String × SelectArgs)
  deletes : List (List Int)
  records : List Bounce
  logs : List (String × String)
deriving DecidableEq, Repr

/-- No call made. -/
def Effects.none : Effects := ⟨[], [], [], []⟩

/-- Collaborators of the handlers that are not defined in `cmd/bounce.go`. -/
structure App where
  /-- Package variable `bounceQuerySortFields`. -/
  bounceQuerySortFields : List String
  /-- Package constant `sortAsc`. -/
  sortAsc : String
  /-- Package constant `sortDesc`. -/
  sortDesc : String
  /-- Query template `app.queries.QueryBounces`. -/
  QueryBounces : String
  /-- Library call `fmt.Sprintf(format, args...)` on string arguments. -/
  Sprintf : String → List String → String
  /-- Address check `subimporter.IsEmail`. -/
  IsEmail : String → Bool
  /-- Pattern test `reUUID.MatchString`. -/
  reUUID : String → Bool
  /-- Library call `strings.ToLower`. -/
  ToLower : String → String
  /-- Helper `parseStringIDs`: the ids, or the text of the error. -/
  parseStringIDs : List String → Except String (List Int)
  /-- Helper `pqErrMsg` on the text of a storage error. -/
  pqErrMsg : String → String
  /-- Storage read `db.Select(&out.Results, stmt, args...)`. -/
  Select : String → SelectArgs → Except String (List Bounce)
  /-- Storage call `app.queries.DeleteBounces.Exec(IDs)`. -/
  DeleteBounces : List Int → Except String Unit
  /-- Recording step `app.bounce.Record(b)`: the error, if any. -/
  Record : Bounce → Option String
  /-- Value of `time.Now()` during the call. -/
  Now : Time

/-! ## Request shapes -/

/-- Inputs of `handleGetBounces`: path params, form values and the result of
`getPagination(c.QueryParams(), 20, 50)`. -/
structure GetRequest where
  id : String
  campaign_id : String
  source : String
  order_by : String
  order : String
  pg : Pagination
deriving DecidableEq, Repr

/-- Inputs of `handleDeleteBounces`: path param `id`, query param `all` and the
repeated query param `id`. -/
structure DeleteRequest where
  id : String
  all : String
  ids : List String
deriving DecidableEq, Repr

/-- Inputs of `handleBounceWebhook`: path param `id` and the outcome of
`c.Bind(&b)` on the request body. -/
structure WebhookRequest where
  service : String
  body : Except HTTPError Bounce

/-! ## `strconv` -/

/-- Error kinds of `strconv.NumError`. -/
inductive NumErr where
  | syntaxErr
  | rangeErr
deriving DecidableEq, Repr

/-- Digit loop of `strconv.ParseUint(s, 10, 64)` with accumulator `n`: a byte
that is not a decimal digit is a syntax error with value 0, and the first step
that leaves the 64 bit range stops with the largest value and a range error. -/
def parseUintLoop : List Char → Nat → Nat × Option NumErr
  | [], n => (n, none)
  | c :: cs, n =>
    if c.toNat < 48 ∨ 57 < c.toNat then (0, some NumErr.syntaxErr)
    else if n ≥ (2 ^ 64 - 1) / 10 + 1 then (2 ^ 64 - 1, some NumErr.rangeErr)
    else
      let n1 := n * 10 + (c.toNat - 48)
      if n1 > 2 ^ 64 - 1 then (2 ^ 64 - 1, some NumErr.rangeErr)
      else parseUintLoop cs n1

/-- Library call `strconv.ParseUint(s, 10, 64)`. -/
def ParseUint (s : List Char) : Nat × Option NumErr :=
  match s with
  | [] => (0, some NumErr.syntaxErr)
  | _ => parseUintLoop s 0

/-- Library call `strconv.ParseInt(s, 10, 64)` on the characters of `s`: value
and error. -/
def ParseIntChars (s : List Char) : Int × Option NumErr :=
  match s with
  | [] => (0, some NumErr.syntaxErr)
  | c :: cs =>
    let neg : Bool := c = '-'
    let rest := if c = '+' ∨ c = '-' then cs else c :: cs
    match ParseUint rest with
    | (_, some NumErr.syntaxErr) => (0, some NumErr.syntaxErr)
    | (un, _) =>
      if ¬ neg ∧ un ≥ 2 ^ 63 then (2 ^ 63 - 1, some NumErr.rangeErr)
      else if neg ∧ un > 2 ^ 63 then (-(2 ^ 63), some NumErr.rangeErr)
      else if neg then (-(un : Int), none) else ((un : Int), none)

/-- Library call `strconv.ParseInt(s, 10, 64)`. -/
def ParseInt (s : String) : Int × Option NumErr := ParseIntChars s.data

/-- Library call `strconv.Atoi(s)` with a 64 bit `int`. -/
def Atoi (s : String) : Int × Option NumErr := ParseInt s

/-- Library call `strconv.ParseBool(str)`: value and whether it failed. -/
def ParseBool (str : String) : Bool × Bool :=
  if str = "1" ∨ str = "t" ∨ str = "T" ∨ str = "TRUE" ∨ str = "true" ∨ str = "True" then
    (true, false)
  else if str = "0" ∨ str = "f" ∨ str = "F" ∨ str = "FALSE" ∨ str = "false" ∨ str = "False" then
    (false, false)
  else (false, true)

/-! ## Handlers -/

/-- Modelled from the spec: the helper `strSliceContains` is not part of
`cmd/bounce.go`; it tests whether the string is one of the entries of the
allow-list. -/
def strSliceContains (str : String) (sl : List String) : Bool := sl.contains str

/-- Function `validateBounceFields`: the error, or `none` for `nil`. -/
def validateBounceFields (b : Bounce) (app : App) : Option HTTPError :=
  if b.Email = "" ∧ b.SubscriberUUID = "" then
    some (NewHTTPError StatusBadRequest (T "globals.messages.invalidData"))
  else if b.Email ≠ "" ∧ app.IsEmail b.Email = false then
    some (NewHTTPError StatusBadRequest (T "globals.messages.invalidEmail"))
  else if b.SubscriberUUID ≠ "" ∧ app.reUUID b.SubscriberUUID = false then
    some (NewHTTPError StatusBadRequest (T "globals.messages.invalidUUID"))
  else none

/-- Handler `handleGetBounces`. -/
def handleGetBounces (app : App) (req : GetRequest) : Response × Effects :=
  let pg := req.pg
  let id := (Atoi req.id).1
  let campID := (Atoi req.campaign_id).1
  let source := req.source
  let single : Bool := id > 0
  let orderBy :=
    if strSliceContains req.order_by app.bounceQuerySortFields = false then "created_at"
    else req.order_by
  let order :=
    if req.order ≠ app.sortAsc ∧ req.order ≠ app.sortDesc then app.sortDesc else req.order
  let stmt := app.Sprintf app.QueryBounces [orderBy, order]
  let args : SelectArgs := ⟨id, campID, source, pg.Offset, pg.Limit⟩
  match app.Select stmt args with
  | Except.error err =>
    (Response.fail (NewHTTPError StatusInternalServerError
        (Ts "globals.messages.errorFetching"
          ["name", "\x7bglobals.terms.bounce\x7d", "error", app.pqErrMsg err])),
      ⟨[(stmt, args)], [], [], [("error fetching bounces: %v", err)]⟩)
  | Except.ok results =>
    match results with
    | [] => (Response.json StatusOK (Payload.wrap ⟨[], 0, 0, 0⟩), ⟨[(stmt, args)], [], [], []⟩)
    | r :: _ =>
      if single then (Response.json StatusOK (Payload.bounce r), ⟨[(stmt, args)], [], [], []⟩)
      else
        (Response.json StatusOK (Payload.wrap ⟨results, r.Total, pg.PerPage, pg.Page⟩),
          ⟨[(stmt, args)], [], [], []⟩)

/-- Tail of `handleDeleteBounces` from the call of `DeleteBounces.Exec(IDs)` on. -/
def execDeleteBounces (app : App) (IDs : List Int) : Response × Effects :=
  match app.DeleteBounces IDs with
  | Except.error err =>
    (Response.fail (NewHTTPError StatusInternalServerError
        (Ts "globals.messages.errorDeleting"
          ["name", "\x7bglobals.terms.bounce\x7d", "error", app.pqErrMsg err])),
      ⟨[], [IDs], [], [("error deleting bounces: %v", err)]⟩)
  | Except.ok _ => (Response.json StatusOK (Payload.flag true), ⟨[], [IDs], [], []⟩)

/-- Handler `handleDeleteBounces`. -/
def handleDeleteBounces (app : App) (req : DeleteRequest) : Response × Effects :=
  let pID := req.id
  let all := (ParseBool req.all).1
  if pID ≠ "" then
    let id := (ParseInt pID).1
    if id < 1 then
      (Response.fail (NewHTTPError StatusBadRequest (T "globals.messages.invalidID")),
        Effects.none)
    else execDeleteBounces app ([] ++ [id])
  else if all = false then
    match app.parseStringIDs req.ids with
    | Except.error err =>
      (Response.fail (NewHTTPError StatusBadRequest
          (Ts "globals.messages.invalidID" ["error", err])), Effects.none)
    | Except.ok i =>
      if i.length = 0 then
        (Response.fail (NewHTTPError StatusBadRequest (Ts "globals.messages.invalidID" [])),
          Effects.none)
      else execDeleteBounces app i
  else execDeleteBounces app []

/-- Tail of `handleBounceWebhook` after the `switch`: record the bounce, log a
failure, acknowledge. -/
def recordBounce (app : App) (b : Bounce) : Response × Effects :=
  match app.Record b with
  | some err =>
    (Response.json StatusOK (Payload.flag true),
      ⟨[], [], [b], [("error recording bounce: %v", err)]⟩)
  | Option.none => (Response.json StatusOK (Payload.flag true), ⟨[], [], [b], []⟩)

/-- Handler `handleBounceWebhook`. -/
def handleBounceWebhook (app : App) (req : WebhookRequest) : Response × Effects :=
  let service := req.service
  let b : Bounce := Bounce.zero
  if service = "" then
    match req.body with
    | Except.error err => (Response.fail err, Effects.none)
    | Except.ok b =>
      match validateBounceFields b app with
      | some err => (Response.fail err, Effects.none)
      | Option.none =>
        let b := { b with Email := app.ToLower b.Email }
        let b := if b.Meta.length = 0 then { b with Meta := "\x7b\x7d" } else b
        let b := if b.CreatedAt.Year = 0 then { b with CreatedAt := app.Now } else b
        recordBounce app b
  else if service = "ses" then recordBounce app b
  else if service = "sendgrid" then recordBounce app b
  else
    (Response.fail (NewHTTPError StatusBadRequest (Ts "bounces.unknownService" [])),
      Effects.none)

/-! ## A concrete instance of the collaborators

Used to run the handlers on explicit requests. -/

/-- Substitution of the `%s` verbs of a format by the arguments, in order. -/
def sprintfChars : List Char → List String → List Char
  | [], _ => []
  | '%' :: 's' :: cs, a :: as => a.data ++ sprintfChars cs as
  | c :: cs, as => c :: sprintfChars cs as

/-- Address test of the instance: one `@`, with text before and after it. -/
def exampleIsEmail (s : String) : Bool :=
  s.data.count '@' = 1 ∧ s.data.head? ≠ some '@' ∧ s.data.getLast? ≠ some '@'

/-- Lower-case hexadecimal digit. -/
def isHexLower (c : Char) : Bool :=
  (48 ≤ c.toNat ∧ c.toNat ≤ 57) ∨ (97 ≤ c.toNat ∧ c.toNat ≤ 102)

/-- UUID test of the instance: 8-4-4-4-12 lower-case hexadecimal digits. -/
def exampleUUID (s : String) : Bool :=
  match s.data.splitOn '-' with
  | [a, b, c, d, e] =>
    a.length = 8 ∧ b.length = 4 ∧ c.length = 4 ∧ d.length = 4 ∧ e.length = 12 ∧
      (a ++ b ++ c ++ d ++ e).all isHexLower
  | _ => false

/-- Id parser of the instance: every parameter goes through `ParseInt`, the
first one that fails or is below 1 fails the whole list. -/
def exampleParseIDs : List String → Except String (List Int)
  | [] => Except.ok []
  | v :: vs =>
    match ParseInt v with
    | (i, Option.none) =>
      if i < 1 then Except.error "not a valid ID"
      else
        match exampleParseIDs vs with
        | Except.ok is => Except.ok (i :: is)
        | Except.error e => Except.error e
    | (_, some _) => Except.error "invalid syntax"

/-- Instance of the collaborators: storage and recording always succeed, the
clock shows one second past the start of year 2000. -/
def exampleApp : App where
  bounceQuerySortFields := ["email", "campaign_name", "source", "created_at"]
  sortAsc := "asc"
  sortDesc := "desc"
  QueryBounces := "SELECT * FROM bounces ORDER BY %s %s OFFSET $4 LIMIT $5"
  Sprintf := fun f args => String.mk (sprintfChars f.data args)
  IsEmail := exampleIsEmail
  reUUID := exampleUUID
  ToLower := fun s => String.mk (s.data.map Char.toLower)
  parseStringIDs := exampleParseIDs
  pqErrMsg := fun e => e
  Select := fun _ _ => Except.ok []
  DeleteBounces := fun _ => Except.ok ()
  Record := fun _ => Option.none
  Now := ⟨63082281601, 0, 0⟩

/-- Instance whose storage and recording steps always fail. -/
def failingApp : App :=
  { exampleApp with
    Select := fun _ _ => Except.error "connection refused"
    DeleteBounces := fun _ => Except.error "connection refused"
    Record := fun _ => some "connection refused" }

/-- Record carrying a well-formed email and a well-formed subscriberUUID. -/
def bothIdentities : Bounce :=
  ⟨0, "123e4567-e89b-42d3-a456-426614174000", "a@b.com", 0, "", "", Time.zero, 0⟩

/-- Native postback body `{"email": "A@B.COM"}` after `c.Bind`. -/
def upperCaseEmail : Bounce := { Bounce.zero with Email := "A@B.COM" }

/-- Native postback body whose `created_at` lies in year 0
(`"0000-06-01T00:00:00Z"`, 214 days before January 1 of year 1). -/
def yearZeroStamp : Bounce :=
  { Bounce.zero with Email := "a@b.com", CreatedAt := ⟨-18489600, 0, 0⟩ }
/-! ## Auxiliary facts -/

theorem string_length_eq_zero (s : String) : s.length = 0 ↔ s = "" := by
  constructor
  · intro h
    have h1 : s.data = [] := List.length_eq_zero.mp h
    exact String.ext h1
  · intro h
    subst h
    rfl

theorem strSliceContains_iff (str : String) (sl : List String) :
    strSliceContains str sl = true ↔ str ∈ sl := by
  simp [strSliceContains]

theorem validateBounceFields_code (app : App) (b : Bounce) (e : HTTPError)
    (h : validateBounceFields b app = some e) : e.code = StatusBadRequest := by
  unfold validateBounceFields at h
  split_ifs at h <;> simp at h <;> subst h <;> rfl

/-! ## Listing -/

/-- C1: the statement given to the storage read by `handleGetBounces` is the
query template filled with a column and a direction only; the column is the
requested `order_by` when it is in `bounceQuerySortFields` and `"created_at"`
otherwise, the direction is the requested `order` when it is `sortAsc` or
`sortDesc` and `sortDesc` otherwise; every other request value is passed as a
bind argument of the read, not in the text. -/
theorem handleGetBounces_sort_allow_listed (app : App) (req : GetRequest) :
    ∃ col dir : String,
      (handleGetBounces app req).2.selects =
        [(app.Sprintf app.QueryBounces [col, dir],
          ⟨(Atoi req.id).1, (Atoi req.campaign_id).1, req.source, req.pg.Offset,
            req.pg.Limit⟩)] ∧
      col = (if req.order_by ∈ app.bounceQuerySortFields then req.order_by else "created_at") ∧
      dir = (if req.order = app.sortAsc ∨ req.order = app.sortDesc then req.order
        else app.sortDesc) ∧
      (col ∈ app.bounceQuerySortFields ∨ col = "created_at") ∧
      (dir = app.sortAsc ∨ dir = app.sortDesc) := by
  refine ⟨if req.order_by ∈ app.bounceQuerySortFields then req.order_by else "created_at",
    if req.order = app.sortAsc ∨ req.order = app.sortDesc then req.order else app.sortDesc,
    ?_, rfl, rfl, ?_, ?_⟩
  · have hc : (if strSliceContains req.order_by app.bounceQuerySortFields = false
          then "created_at" else req.order_by) =
        (if req.order_by ∈ app.bounceQuerySortFields then req.order_by else "created_at") := by
      by_cases h : req.order_by ∈ app.bounceQuerySortFields
      · simp [strSliceContains, h]
      · simp [strSliceContains, h]
    have hd : (if req.order ≠ app.sortAsc ∧ req.order ≠ app.sortDesc then app.sortDesc
          else req.order) =
        (if req.order = app.sortAsc ∨ req.order = app.sortDesc then req.order
          else app.sortDesc) := by
      by_cases h1 : req.order = app.sortAsc <;> by_cases h2 : req.order = app.sortDesc <;>
        simp [h1, h2]
    unfold handleGetBounces
    simp only [hc, hd]
    cases app.Select _ _ with
    | error err => rfl
    | ok results =>
      cases results with
      | nil => rfl
      | cons r rs =>
        simp only
        split_ifs <;> rfl
  · by_cases h : req.order_by ∈ app.bounceQuerySortFields
    · left; simp [h]
    · right; simp [h]
  · by_cases h1 : req.order = app.sortAsc
    · left; simp [h1]
    · by_cases h2 : req.order = app.sortDesc
      · right; simp [h2]
      · right; simp [h1, h2]

/-! ## Validation -/

/-- C2: `validateBounceFields` returns the `invalidData` error exactly when
email and subscriberUUID are both empty; the `invalidEmail` error exactly when
the email is non-empty and fails the address check (whatever the
subscriberUUID); the `invalidUUID` error exactly when the email rule does not
fire and the subscriberUUID is non-empty and fails the pattern; and no error
exactly when none of the three rules fires. -/
theorem validateBounceFields_first_failure_wins (app : App) (b : Bounce) :
    (validateBounceFields b app =
        some (NewHTTPError StatusBadRequest (T "globals.messages.invalidData")) ↔
      (b.Email = "" ∧ b.SubscriberUUID = "")) ∧
    (validateBounceFields b app =
        some (NewHTTPError StatusBadRequest (T "globals.messages.invalidEmail")) ↔
      (b.Email ≠ "" ∧ app.IsEmail b.Email = false)) ∧
    (validateBounceFields b app =
        some (NewHTTPError StatusBadRequest (T "globals.messages.invalidUUID")) ↔
      (¬ (b.Email ≠ "" ∧ app.IsEmail b.Email = false) ∧
        b.SubscriberUUID ≠ "" ∧ app.reUUID b.SubscriberUUID = false)) ∧
    (validateBounceFields b app = none ↔
      (¬ (b.Email = "" ∧ b.SubscriberUUID = "") ∧
        ¬ (b.Email ≠ "" ∧ app.IsEmail b.Email = false) ∧
        ¬ (b.SubscriberUUID ≠ "" ∧ app.reUUID b.SubscriberUUID = false))) := by
  unfold validateBounceFields
  by_cases h1 : b.Email = "" <;> by_cases h2 : b.SubscriberUUID = "" <;>
    cases h3 : app.IsEmail b.Email <;> cases h4 : app.reUUID b.SubscriberUUID <;>
    simp [h1, h2, h3, h4, NewHTTPError, T, StatusBadRequest]

/-- C4, as stated, fails: a record that carries both an email and a
subscriberUUID is accepted by `validateBounceFields`. -/
theorem validateBounceFields_accepts_both_identities :
    validateBounceFields bothIdentities exampleApp = none ∧
      bothIdentities.Email ≠ "" ∧ bothIdentities.SubscriberUUID ≠ "" := by
  decide

/-- C4, amended: a record that `validateBounceFields` accepts has at least one
of email and subscriberUUID non-empty, and a record that carries both is
accepted when the email passes the address check and the subscriberUUID the
pattern. -/
theorem validateBounceFields_accepts_some_identity (app : App) (b : Bounce) :
    (validateBounceFields b app = none → b.Email ≠ "" ∨ b.SubscriberUUID ≠ "") ∧
    (b.Email ≠ "" → b.SubscriberUUID ≠ "" → app.IsEmail b.Email = true →
      app.reUUID b.SubscriberUUID = true → validateBounceFields b app = none) := by
  unfold validateBounceFields
  constructor
  · intro h
    by_cases h1 : b.Email = ""
    · by_cases h2 : b.SubscriberUUID = ""
      · simp [h1, h2] at h
      · exact Or.inr h2
    · exact Or.inl h1
  · intro h1 h2 h3 h4
    simp [h1, h2, h3, h4]

theorem validateBounceFields_accepts_some_identity_witness :
    validateBounceFields bothIdentities exampleApp = none ∧
      (bothIdentities.Email ≠ "" ∨ bothIdentities.SubscriberUUID ≠ "") :=
  ⟨(validateBounceFields_accepts_some_identity exampleApp bothIdentities).2
      (by decide) (by decide) (by decide) (by decide),
    (validateBounceFields_accepts_some_identity exampleApp bothIdentities).1 (by decide)⟩

/-! ## Deletion -/

theorem execDeleteBounces_deletes (app : App) (IDs : List Int) :
    (execDeleteBounces app IDs).2.deletes = [IDs] := by
  unfold execDeleteBounces
  cases app.DeleteBounces IDs <;> rfl

theorem execDeleteBounces_ok_iff (app : App) (IDs : List Int) :
    (execDeleteBounces app IDs).1 = Response.json StatusOK (Payload.flag true) ↔
      app.DeleteBounces IDs = Except.ok () := by
  unfold execDeleteBounces
  cases h : app.DeleteBounces IDs <;> simp

theorem execDeleteBounces_error (app : App) (IDs : List Int) (err : String)
    (h : app.DeleteBounces IDs = Except.error err) :
    (execDeleteBounces app IDs).1 =
      Response.fail (NewHTTPError StatusInternalServerError
        (Ts "globals.messages.errorDeleting"
          ["name", "\x7bglobals.terms.bounce\x7d", "error", app.pqErrMsg err])) := by
  unfold execDeleteBounces
  rw [h]

/-- C5: with no path id and `all` true, `handleDeleteBounces` calls the storage
deletion once, with the empty id set, whatever the `id` query parameters are;
the response is the success response exactly when the storage call succeeds,
and the `errorDeleting` server error when it fails. -/
theorem handleDeleteBounces_all (app : App) (req : DeleteRequest)
    (hid : req.id = "") (hall : (ParseBool req.all).1 = true) :
    (handleDeleteBounces app req).2.deletes = [[]] ∧
    handleDeleteBounces app req = handleDeleteBounces app { req with ids := [] } ∧
    ((handleDeleteBounces app req).1 = Response.json StatusOK (Payload.flag true) ↔
      app.DeleteBounces [] = Except.ok ()) ∧
    (∀ err, app.DeleteBounces [] = Except.error err →
      (handleDeleteBounces app req).1 =
        Response.fail (NewHTTPError StatusInternalServerError
          (Ts "globals.messages.errorDeleting"
            ["name", "\x7bglobals.terms.bounce\x7d", "error", app.pqErrMsg err]))) := by
  have h : ∀ r : DeleteRequest, r.id = "" → (ParseBool r.all).1 = true →
      handleDeleteBounces app r = execDeleteBounces app [] := by
    intro r h1 h2
    unfold handleDeleteBounces
    simp [h1, h2]
  rw [h req hid hall, h { req with ids := [] } hid hall]
  exact ⟨execDeleteBounces_deletes app [], rfl, execDeleteBounces_ok_iff app [],
    fun err he => execDeleteBounces_error app [] err he⟩

theorem handleDeleteBounces_all_witness :
    (handleDeleteBounces failingApp ⟨"", "true", ["x", "7"]⟩).2.deletes = [[]] ∧
      (handleDeleteBounces failingApp ⟨"", "true", ["x", "7"]⟩).1 =
        Response.fail (NewHTTPError StatusInternalServerError
          (Ts "globals.messages.errorDeleting"
            ["name", "\x7bglobals.terms.bounce\x7d", "error", "connection refused"])) :=
  ⟨(handleDeleteBounces_all failingApp ⟨"", "true", ["x", "7"]⟩ (by decide) (by decide)).1,
    (handleDeleteBounces_all failingApp ⟨"", "true", ["x", "7"]⟩ (by decide) (by decide)).2.2.2
      "connection refused" rfl⟩

/-- C6, at the path id `9223372036854775808`: `ParseInt` reports a range error
together with the value `9223372036854775807`, the handler drops the error, and
the storage deletion is called with that other id. -/
theorem handleDeleteBounces_path_id_out_of_range :
    ParseInt "9223372036854775808" = (9223372036854775807, some NumErr.rangeErr) ∧
      handleDeleteBounces exampleApp ⟨"9223372036854775808", "", []⟩ =
        (Response.json StatusOK (Payload.flag true), ⟨[], [[9223372036854775807]], [], []⟩) := by
  decide

/-- Behaviour of the path id branch of `handleDeleteBounces` in terms of the
value returned by `ParseInt`. -/
theorem pathIdBranch_by_value (app : App) (req : DeleteRequest) (hid : req.id ≠ "") :
    ((ParseInt req.id).1 < 1 →
      handleDeleteBounces app req =
        (Response.fail (NewHTTPError StatusBadRequest (T "globals.messages.invalidID")),
          Effects.none)) ∧
    (1 ≤ (ParseInt req.id).1 →
      handleDeleteBounces app req = execDeleteBounces app [(ParseInt req.id).1]) := by
  unfold handleDeleteBounces
  constructor
  · intro h
    simp [hid, h]
  · intro h
    have h' : ¬ (ParseInt req.id).1 < 1 := not_lt.mpr h
    simp [hid, h']

/-- C7: with no path id and `all` false, `handleDeleteBounces` answers the
`invalidID` client error without calling the storage deletion when
`parseStringIDs` fails on the `id` query parameters or returns no id (so also
for no `id` parameter, when the helper returns no id for no parameter);
otherwise it calls the storage deletion with exactly the parsed ids. -/
theorem handleDeleteBounces_explicit_ids (app : App) (req : DeleteRequest)
    (hid : req.id = "") (hall : (ParseBool req.all).1 = false) :
    (∀ err, app.parseStringIDs req.ids = Except.error err →
      handleDeleteBounces app req =
        (Response.fail (NewHTTPError StatusBadRequest
          (Ts "globals.messages.invalidID" ["error", err])), Effects.none)) ∧
    (app.parseStringIDs req.ids = Except.ok [] →
      handleDeleteBounces app req =
        (Response.fail (NewHTTPError StatusBadRequest (Ts "globals.messages.invalidID" [])),
          Effects.none)) ∧
    (req.ids = [] → app.parseStringIDs [] = Except.ok [] →
      handleDeleteBounces app req =
        (Response.fail (NewHTTPError StatusBadRequest (Ts "globals.messages.invalidID" [])),
          Effects.none)) ∧
    (∀ i, app.parseStringIDs req.ids = Except.ok i → i ≠ [] →
      handleDeleteBounces app req = execDeleteBounces app i ∧
        (handleDeleteBounces app req).2.deletes = [i]) := by
  have hok : app.parseStringIDs req.ids = Except.ok [] →
      handleDeleteBounces app req =
        (Response.fail (NewHTTPError StatusBadRequest (Ts "globals.messages.invalidID" [])),
          Effects.none) := by
    intro h
    unfold handleDeleteBounces
    simp [hid, hall, h]
  refine ⟨?_, hok, ?_, ?_⟩
  · intro err h
    unfold handleDeleteBounces
    simp [hid, hall, h]
  · intro h1 h2
    apply hok
    rw [h1, h2]
  · intro i h hne
    have hlen : ¬ i.length = 0 := fun h0 => hne (List.length_eq_zero.mp h0)
    have heq : handleDeleteBounces app req = execDeleteBounces app i := by
      unfold handleDeleteBounces
      simp [hid, hall, h, hne]
    exact ⟨heq, by rw [heq]; exact execDeleteBounces_deletes app i⟩

theorem handleDeleteBounces_explicit_ids_witness :
    handleDeleteBounces exampleApp ⟨"", "false", []⟩ =
        (Response.fail (NewHTTPError StatusBadRequest (Ts "globals.messages.invalidID" [])),
          Effects.none) ∧
      (handleDeleteBounces exampleApp ⟨"", "", ["3", "4"]⟩).2.deletes = [[3, 4]] :=
  ⟨(handleDeleteBounces_explicit_ids exampleApp ⟨"", "false", []⟩ (by decide) (by decide)).2.2.1
      rfl rfl,
    ((handleDeleteBounces_explicit_ids exampleApp ⟨"", "", ["3", "4"]⟩ (by decide)
      (by decide)).2.2.2 [3, 4] rfl (by decide)).2⟩

/-! ## Ingestion -/

theorem recordBounce_response (app : App) (b : Bounce) :
    (recordBounce app b).1 = Response.json StatusOK (Payload.flag true) := by
  unfold recordBounce
  cases app.Record b <;> rfl

theorem recordBounce_records (app : App) (b : Bounce) :
    (recordBounce app b).2.records = [b] := by
  unfold recordBounce
  cases app.Record b <;> rfl

theorem handleBounceWebhook_native_accepted (app : App) (b : Bounce)
    (hv : validateBounceFields b app = none) :
    handleBounceWebhook app ⟨"", Except.ok b⟩ =
      recordBounce app
        { ID := b.ID, SubscriberUUID := b.SubscriberUUID, Email := app.ToLower b.Email,
          CampaignID := b.CampaignID, Source := b.Source,
          Meta := if b.Meta = "" then "\x7b\x7d" else b.Meta,
          CreatedAt := if b.CreatedAt.Year = 0 then app.Now else b.CreatedAt,
          Total := b.Total } := by
  unfold handleBounceWebhook
  simp only [if_true, hv, string_length_eq_zero]
  congr 1
  by_cases hm : b.Meta = "" <;> by_cases hy : b.CreatedAt.Year = 0 <;> simp [hm, hy]

theorem handleBounceWebhook_native_rejected (app : App) (b : Bounce) (e : HTTPError)
    (hv : validateBounceFields b app = some e) :
    handleBounceWebhook app ⟨"", Except.ok b⟩ = (Response.fail e, Effects.none) := by
  unfold handleBounceWebhook
  simp only [if_true, hv]

/-- C3, as stated, fails: through the discriminator `"ses"` the validator is
not run, the call is acknowledged and a record whose email and subscriberUUID
are both empty is passed to the recording step. -/
theorem handleBounceWebhook_ses_records_empty_identity :
    handleBounceWebhook exampleApp ⟨"ses", Except.ok Bounce.zero⟩ =
        (Response.json StatusOK (Payload.flag true), ⟨[], [], [Bounce.zero], []⟩) ∧
      Bounce.zero.Email = "" ∧ Bounce.zero.SubscriberUUID = "" := by
  decide

/-- C3, amended: through the native discriminator `""`, a bound record whose
email and subscriberUUID are both empty is rejected with the `invalidData`
error and nothing is passed to the recording step; through `"ses"` and
`"sendgrid"` the validator is not run, the call is acknowledged whatever the
body is. -/
theorem handleBounceWebhook_missing_identity_native (app : App) (b : Bounce)
    (he : b.Email = "") (hu : b.SubscriberUUID = "") :
    handleBounceWebhook app ⟨"", Except.ok b⟩ =
        (Response.fail (NewHTTPError StatusBadRequest (T "globals.messages.invalidData")),
          Effects.none) ∧
      (handleBounceWebhook app ⟨"", Except.ok b⟩).2.records = [] ∧
      ∀ body, (handleBounceWebhook app ⟨"ses", body⟩).1 =
            Response.json StatusOK (Payload.flag true) ∧
          (handleBounceWebhook app ⟨"sendgrid", body⟩).1 =
            Response.json StatusOK (Payload.flag true) := by
  have hv : validateBounceFields b app =
      some (NewHTTPError StatusBadRequest (T "globals.messages.invalidData")) := by
    unfold validateBounceFields
    simp [he, hu]
  rw [handleBounceWebhook_native_rejected app b _ hv]
  refine ⟨rfl, rfl, fun body => ⟨?_, ?_⟩⟩
  · unfold handleBounceWebhook
    simp [recordBounce_response]
  · unfold handleBounceWebhook
    simp [recordBounce_response]

theorem handleBounceWebhook_missing_identity_native_witness :
    handleBounceWebhook exampleApp ⟨"", Except.ok Bounce.zero⟩ =
      (Response.fail (NewHTTPError StatusBadRequest (T "globals.messages.invalidData")),
        Effects.none) :=
  (handleBounceWebhook_missing_identity_native exampleApp Bounce.zero rfl rfl).1

/-- C8: for a body that binds, `handleBounceWebhook` answers a client error
exactly when the discriminator is none of `""`, `"ses"`, `"sendgrid"` (the
`unknownService` error, which differs from the three validation errors) or the
discriminator is `""` and `validateBounceFields` fails (its error); in both
cases nothing is passed to the recording step. In every other case the answer
is the success acknowledgement and one record is passed to the recording step,
whatever that step returns. -/
theorem handleBounceWebhook_outcomes (app : App) (service : String) (b : Bounce) :
    ((∃ e, (handleBounceWebhook app ⟨service, Except.ok b⟩).1 = Response.fail e ∧
        e.code = StatusBadRequest) ↔
      ((service ≠ "" ∧ service ≠ "ses" ∧ service ≠ "sendgrid") ∨
        (service = "" ∧ validateBounceFields b app ≠ none))) ∧
    ((service ≠ "" ∧ service ≠ "ses" ∧ service ≠ "sendgrid") →
      handleBounceWebhook app ⟨service, Except.ok b⟩ =
        (Response.fail (NewHTTPError StatusBadRequest (Ts "bounces.unknownService" [])),
          Effects.none)) ∧
    (∀ e, service = "" → validateBounceFields b app = some e →
      handleBounceWebhook app ⟨service, Except.ok b⟩ = (Response.fail e, Effects.none)) ∧
    (∀ b0 e, validateBounceFields b0 app = some e →
      e ≠ NewHTTPError StatusBadRequest (Ts "bounces.unknownService" [])) ∧
    (¬ ((service ≠ "" ∧ service ≠ "ses" ∧ service ≠ "sendgrid") ∨
        (service = "" ∧ validateBounceFields b app ≠ none)) →
      (handleBounceWebhook app ⟨service, Except.ok b⟩).1 =
          Response.json StatusOK (Payload.flag true) ∧
        ∃ r, (handleBounceWebhook app ⟨service, Except.ok b⟩).2.records = [r]) := by
  have hdistinct : ∀ b0 e, validateBounceFields b0 app = some e →
      e ≠ NewHTTPError StatusBadRequest (Ts "bounces.unknownService" []) := by
    intro b0 e h
    unfold validateBounceFields at h
    split_ifs at h <;> simp at h <;> subst h <;> decide
  have hses : ∀ body, handleBounceWebhook app ⟨"ses", body⟩ = recordBounce app Bounce.zero := by
    intro body
    unfold handleBounceWebhook
    simp
  have hsg : ∀ body, handleBounceWebhook app ⟨"sendgrid", body⟩ =
      recordBounce app Bounce.zero := by
    intro body
    unfold handleBounceWebhook
    simp
  have hunk : service ≠ "" ∧ service ≠ "ses" ∧ service ≠ "sendgrid" →
      handleBounceWebhook app ⟨service, Except.ok b⟩ =
        (Response.fail (NewHTTPError StatusBadRequest (Ts "bounces.unknownService" [])),
          Effects.none) := by
    rintro ⟨h0, h1, h2⟩
    unfold handleBounceWebhook
    simp [h0, h1, h2]
  refine ⟨?_, hunk, ?_, hdistinct, ?_⟩
  · by_cases h0 : service = ""
    · subst h0
      cases hv : validateBounceFields b app with
      | none =>
        rw [handleBounceWebhook_native_accepted app b hv]
        simp [recordBounce_response]
      | some e =>
        rw [handleBounceWebhook_native_rejected app b e hv]
        simp [validateBounceFields_code app b e hv]
    · by_cases h1 : service = "ses"
      · subst h1
        rw [hses]
        simp [recordBounce_response]
      · by_cases h2 : service = "sendgrid"
        · subst h2
          rw [hsg]
          simp [recordBounce_response]
        · rw [hunk ⟨h0, h1, h2⟩]
          simp [h0, h1, h2, NewHTTPError]
  · intro e h0 hv
    subst h0
    exact handleBounceWebhook_native_rejected app b e hv
  · intro hn
    have hn' := not_or.mp hn
    by_cases h0 : service = ""
    · subst h0
      have hv : validateBounceFields b app = none := by
        by_contra hc
        exact hn'.2 ⟨rfl, hc⟩
      rw [handleBounceWebhook_native_accepted app b hv]
      exact ⟨recordBounce_response app _, _, recordBounce_records app _⟩
    · by_cases h1 : service = "ses"
      · subst h1
        rw [hses]
        exact ⟨recordBounce_response app _, _, recordBounce_records app _⟩
      · by_cases h2 : service = "sendgrid"
        · subst h2
          rw [hsg]
          exact ⟨recordBounce_response app _, _, recordBounce_records app _⟩
        · exact absurd ⟨h0, h1, h2⟩ hn'.1

theorem handleBounceWebhook_outcomes_witness :
    handleBounceWebhook failingApp ⟨"mailgun", Except.ok upperCaseEmail⟩ =
        (Response.fail (NewHTTPError StatusBadRequest (Ts "bounces.unknownService" [])),
          Effects.none) ∧
      (handleBounceWebhook failingApp ⟨"", Except.ok upperCaseEmail⟩).1 =
        Response.json StatusOK (Payload.flag true) :=
  ⟨(handleBounceWebhook_outcomes failingApp "mailgun" upperCaseEmail).2.1 (by decide),
    ((handleBounceWebhook_outcomes failingApp "" upperCaseEmail).2.2.2.2 (by decide)).1⟩

/-- C9: on the native path, for a bound record that passes validation, exactly
one record is passed to the recording step; its email is the lower-cased input
email, its meta is `{}` when the input meta is empty and the input meta
otherwise, and its subscriberUUID, campaignID and source are those of the
input. -/
theorem handleBounceWebhook_native_normalised (app : App) (b : Bounce)
    (hv : validateBounceFields b app = none) :
    ∃ r, (handleBounceWebhook app ⟨"", Except.ok b⟩).2.records = [r] ∧
      r.Email = app.ToLower b.Email ∧
      r.Meta = (if b.Meta = "" then "\x7b\x7d" else b.Meta) ∧
      r.SubscriberUUID = b.SubscriberUUID ∧
      r.CampaignID = b.CampaignID ∧
      r.Source = b.Source := by
  rw [handleBounceWebhook_native_accepted app b hv]
  exact ⟨_, recordBounce_records app _, rfl, rfl, rfl, rfl, rfl⟩

theorem handleBounceWebhook_native_normalised_witness :
    validateBounceFields upperCaseEmail exampleApp = none ∧
      ∃ r, (handleBounceWebhook exampleApp ⟨"", Except.ok upperCaseEmail⟩).2.records = [r] ∧
        r.Email = "a@b.com" ∧ r.Meta = "\x7b\x7d" ∧ r.SubscriberUUID = "" ∧
        r.CampaignID = 0 ∧ r.Source = "" :=
  ⟨by decide, handleBounceWebhook_native_normalised exampleApp upperCaseEmail (by decide)⟩

/-- C10, at the native body `{"email": "A@B.COM"}`: the bound record has the
zero timestamp, whose year is 1 and not 0, so the record passed to the
recording step keeps the zero timestamp instead of the time of the call; a
timestamp of year 0 given by the caller is replaced by the time of the call. -/
theorem handleBounceWebhook_zero_createdAt_kept :
    Time.zero.Year = 1 ∧
      (handleBounceWebhook exampleApp ⟨"", Except.ok upperCaseEmail⟩).2.records =
        [⟨0, "", "a@b.com", 0, "", "\x7b\x7d", Time.zero, 0⟩] ∧
      exampleApp.Now ≠ Time.zero ∧
      (handleBounceWebhook exampleApp ⟨"", Except.ok yearZeroStamp⟩).2.records =
        [⟨0, "", "a@b.com", 0, "", "\x7b\x7d", exampleApp.Now, 0⟩] ∧
      yearZeroStamp.CreatedAt ≠ exampleApp.Now := by
  decide

end Listmonk
